import Mathlib

/-!
Verification of the anesthesia gas-mixer safety calculator.

The two core functions of `src/Project/app.py` — `analyze_gas_mixer` and
`clinical_adjustment` — are pure functions of their arguments (apart from
the timestamp the analyzer stamps on its result).  They are embedded here
over exact rationals: Python float literals such as `0.21` and `25.0`
become the corresponding rationals, sequential reassignment of local
variables becomes let-shadowing, and `datetime.now()` is modelled as an
explicit `now : String` argument so that timestamp-independence is
expressible.
-/

namespace Anesthesia

/-- Metrics sub-record of the analyzer's result dictionary
(`{"fio2": ..., "total_flow": ...}`). -/
structure Metrics where
  fio2 : ℚ
  total_flow : ℚ
deriving DecidableEq, Repr

/-- Result dictionary returned by `analyze_gas_mixer`. -/
structure AnalysisResult where
  status : String
  category : String
  metrics : Metrics
  alerts : List String
  warnings : List String
  timestamp : String
deriving DecidableEq, Repr

/-- Patient dictionary consumed by `clinical_adjustment`
(`{"age", "weight", "compliance", "asa"}`; all integers in the UI). -/
structure PatientProfile where
  age : ℤ
  weight : ℤ
  compliance : ℤ
  asa : ℤ
deriving DecidableEq, Repr

/-- Rendering of a rational to one decimal place, modelling Python's
`f"{x:.1f}"` format (rounding half up rather than half even; no claim
depends on tie behaviour). -/
def fmt1 (q : ℚ) : String :=
  let t : ℤ := ⌊q * 10 + 1 / 2⌋
  let sign : String := if t < 0 then "-" else ""
  let a : ℕ := t.natAbs
  sign ++ toString (a / 10) ++ "." ++ toString (a % 10)

/-- Alert text of the zero-flow branch (`app.py` line 30). -/
def no_flow_alert : String := "CRITICAL: No fresh gas flow detected."

/-- Alert text of the hypoxia branch (`app.py` line 43), FiO₂ rendered
to one decimal place. -/
def hypoxia_alert (fio2_percent : ℚ) : String :=
  "Hypoxic mixture detected: FiO₂ = " ++ fmt1 fio2_percent ++ "% (< 25%)."

/-- Warning text of the low-flow check (`app.py` line 51). -/
def low_flow_warning : String :=
  "Low fresh gas flow (< 0.5 L/min). Risk of CO₂ rebreathing."

/-- Warning text of the high-agent check (`app.py` line 59), with the
literal agent value interpolated. -/
def high_agent_warning (agent_perc : ℚ) : String :=
  "High anesthetic concentration (" ++ toString agent_perc ++ "%)."

/-- Embedding of `analyze_gas_mixer` (`app.py` lines 10–72).  Sequential
mutation of `category` / `final_status` / `alerts` / `warnings` is
expressed by let-shadowing; `now` stands for `datetime.now().isoformat()`. -/
def analyze_gas_mixer (flow_o2 flow_n2o flow_air agent_perc : ℚ)
    (now : String) : AnalysisResult :=
  let alerts : List String := []
  let warnings : List String := []
  let category : String := "SAFE"
  let final_status : String := "PASS"
  let total_flow : ℚ := flow_o2 + flow_n2o + flow_air
  if total_flow = 0 then
    { status := "FAIL"
      category := "CRITICAL"
      metrics := { fio2 := 0, total_flow := 0 }
      alerts := [no_flow_alert]
      warnings := []
      timestamp := now }
  else
    let oxygen_volume : ℚ := flow_o2 + flow_air * 0.21
    let fio2_percent : ℚ := (oxygen_volume / total_flow) * 100
    let category := if fio2_percent < 25.0 then "CRITICAL" else category
    let final_status := if fio2_percent < 25.0 then "FAIL" else final_status
    let alerts :=
      if fio2_percent < 25.0 then alerts ++ [hypoxia_alert fio2_percent]
      else alerts
    let category :=
      if total_flow < 0.5 then
        (if category ≠ "CRITICAL" then "WARNING" else category)
      else category
    let warnings :=
      if total_flow < 0.5 then warnings ++ [low_flow_warning] else warnings
    let category :=
      if agent_perc > 8.0 then
        (if category ≠ "CRITICAL" then "WARNING" else category)
      else category
    let warnings :=
      if agent_perc > 8.0 then warnings ++ [high_agent_warning agent_perc]
      else warnings
    { status := final_status
      category := category
      metrics := { fio2 := fio2_percent, total_flow := total_flow }
      alerts := alerts
      warnings := warnings
      timestamp := now }

/-- Patient-specific minimum FiO₂ computed by `clinical_adjustment`
(`app.py` lines 87–93): start at 25.0, reassign to 30.0 on the age
condition, reassign to 30.0 on the ASA condition. -/
def recommended_fio2 (patient : PatientProfile) : ℚ :=
  let recommended_fio2 : ℚ := 25.0
  let recommended_fio2 :=
    if patient.age < 1 ∨ patient.age > 65 then 30.0 else recommended_fio2
  if patient.asa ≥ 3 then 30.0 else recommended_fio2

/-- Warning text of the FiO₂-floor check (`app.py` line 97).  Python
prints the float `25.0` / `30.0` with one decimal digit. -/
def fio2_floor_warning (recommended : ℚ) : String :=
  "Patient-specific FiO₂ recommendation: ≥ " ++ fmt1 recommended ++ "%."

/-- Warning text of the agent-sensitivity check (`app.py` line 103). -/
def agent_sensitivity_warning : String :=
  "Elderly / low-weight patient may be sensitive to high anesthetic dose."

/-- Warning text of the compliance check (`app.py` line 109). -/
def low_compliance_warning : String :=
  "Low lung compliance. Monitor airway pressure closely."

/-- Embedding of `clinical_adjustment` (`app.py` lines 78–112). -/
def clinical_adjustment (fio2 agent_perc : ℚ)
    (patient : PatientProfile) : List String :=
  let clinical_warnings : List String := []
  let rec_fio2 := recommended_fio2 patient
  let clinical_warnings :=
    if fio2 < rec_fio2 then clinical_warnings ++ [fio2_floor_warning rec_fio2]
    else clinical_warnings
  let clinical_warnings :=
    if (patient.age > 65 ∨ patient.weight < 50) ∧ agent_perc > 6.0 then
      clinical_warnings ++ [agent_sensitivity_warning]
    else clinical_warnings
  if patient.compliance < 30 then
    clinical_warnings ++ [low_compliance_warning]
  else clinical_warnings

/-- Merge performed by `main` (`app.py` line 163):
`result["warnings"].extend(clinical_warnings)` touches only the warnings
field of the analyzer's result. -/
def mergeResult (r : AnalysisResult) (clinical_warnings : List String) :
    AnalysisResult :=
  { r with warnings := r.warnings ++ clinical_warnings }

/-- Severity order on the category strings: SAFE < WARNING < CRITICAL. -/
def severity : String → ℕ
  | "WARNING" => 1
  | "CRITICAL" => 2
  | _ => 0

end Anesthesia

namespace Anesthesia

/-- Closed form of the analyzer on any input with nonzero total flow:
every field is determined by the three threshold conditions. -/
theorem analyze_gas_mixer_pos (flow_o2 flow_n2o flow_air agent_perc : ℚ)
    (now : String) (h : flow_o2 + flow_n2o + flow_air ≠ 0) :
    analyze_gas_mixer flow_o2 flow_n2o flow_air agent_perc now =
      { status :=
          if (flow_o2 + flow_air * 0.21) / (flow_o2 + flow_n2o + flow_air) * 100 < 25.0
          then "FAIL" else "PASS"
        category :=
          if (flow_o2 + flow_air * 0.21) / (flow_o2 + flow_n2o + flow_air) * 100 < 25.0
          then "CRITICAL"
          else if flow_o2 + flow_n2o + flow_air < 0.5 then "WARNING"
          else if agent_perc > 8.0 then "WARNING" else "SAFE"
        metrics :=
          { fio2 := (flow_o2 + flow_air * 0.21) / (flow_o2 + flow_n2o + flow_air) * 100
            total_flow := flow_o2 + flow_n2o + flow_air }
        alerts :=
          if (flow_o2 + flow_air * 0.21) / (flow_o2 + flow_n2o + flow_air) * 100 < 25.0
          then [hypoxia_alert
            ((flow_o2 + flow_air * 0.21) / (flow_o2 + flow_n2o + flow_air) * 100)]
          else []
        warnings :=
          (if flow_o2 + flow_n2o + flow_air < 0.5 then [low_flow_warning] else []) ++
          (if agent_perc > 8.0 then [high_agent_warning agent_perc] else [])
        timestamp := now } := by
  unfold analyze_gas_mixer
  rw [if_neg h]
  split_ifs <;> simp_all

end Anesthesia

namespace Anesthesia

/-- C1: whenever `o2 + n2o + air = 0`, the analyzer short-circuits to the
fixed record `status=FAIL`, `category=CRITICAL`, `fio2=0`, `totalFlow=0`,
exactly the single alert "CRITICAL: No fresh gas flow detected." and no
warnings, for every agent concentration; the FiO₂ formula is bypassed. -/
theorem analyze_zero_flow (flow_o2 flow_n2o flow_air agent_perc : ℚ)
    (now : String) (h : flow_o2 + flow_n2o + flow_air = 0) :
    analyze_gas_mixer flow_o2 flow_n2o flow_air agent_perc now =
      { status := "FAIL"
        category := "CRITICAL"
        metrics := { fio2 := 0, total_flow := 0 }
        alerts := ["CRITICAL: No fresh gas flow detected."]
        warnings := []
        timestamp := now } := by
  unfold analyze_gas_mixer
  rw [if_pos h]
  rfl

/-- Witness for C1 at the all-zero flow input. -/
theorem analyze_zero_flow_witness :
    analyze_gas_mixer 0 0 0 5 "w" =
      { status := "FAIL"
        category := "CRITICAL"
        metrics := { fio2 := 0, total_flow := 0 }
        alerts := ["CRITICAL: No fresh gas flow detected."]
        warnings := []
        timestamp := "w" } :=
  analyze_zero_flow 0 0 0 5 "w" (by norm_num)

/-- C2 counterexample: at `(o2, n2o, air) = (0, -9, 10)` the total flow is
`1 > 0`, `o2`, `air` and the total flow are all nonnegative and
`o2 ≤ totalFlow`, yet the computed FiO₂ is `210`, outside `[0, 100]` —
the claim's bound also needs `n2o ≥ 0`. -/
theorem analyze_fio2_bound_counterexample :
    (0 : ℚ) + -9 + 10 > 0 ∧ (0 : ℚ) ≥ 0 ∧ (10 : ℚ) ≥ 0 ∧
    (0 : ℚ) ≤ 0 + -9 + 10 ∧
    (analyze_gas_mixer 0 (-9) 10 0 "t").metrics.fio2 = 210 ∧
    ¬ (analyze_gas_mixer 0 (-9) 10 0 "t").metrics.fio2 ≤ 100 := by
  have hx : (analyze_gas_mixer 0 (-9) 10 0 "t").metrics.fio2 = 210 := by
    rw [analyze_gas_mixer_pos 0 (-9) 10 0 "t" (by norm_num)]
    norm_num
  exact ⟨by norm_num, by norm_num, by norm_num, by norm_num, hx,
    by rw [hx]; norm_num⟩

/-- C2 (amended): for total flow `> 0` the metrics are exactly
`fio2 = (o2 + 0.21*air)/totalFlow*100` and `totalFlow = o2+n2o+air`, and
`fio2 ∈ [0, 100]` whenever `o2`, `n2o`, `air` (hence the total flow) are
all nonnegative and `o2 ≤ totalFlow` — the amendment adds `n2o ≥ 0`,
which the counterexample shows is necessary. -/
theorem analyze_fio2_formula (flow_o2 flow_n2o flow_air agent_perc : ℚ)
    (now : String) (h : flow_o2 + flow_n2o + flow_air > 0) :
    (analyze_gas_mixer flow_o2 flow_n2o flow_air agent_perc now).metrics.fio2
      = (flow_o2 + 0.21 * flow_air) / (flow_o2 + flow_n2o + flow_air) * 100 ∧
    (analyze_gas_mixer flow_o2 flow_n2o flow_air agent_perc now).metrics.total_flow
      = flow_o2 + flow_n2o + flow_air ∧
    (flow_o2 ≥ 0 → flow_n2o ≥ 0 → flow_air ≥ 0 →
      flow_o2 ≤ flow_o2 + flow_n2o + flow_air →
      0 ≤ (analyze_gas_mixer flow_o2 flow_n2o flow_air agent_perc now).metrics.fio2 ∧
      (analyze_gas_mixer flow_o2 flow_n2o flow_air agent_perc now).metrics.fio2 ≤ 100) := by
  rw [analyze_gas_mixer_pos flow_o2 flow_n2o flow_air agent_perc now (ne_of_gt h)]
  refine ⟨by ring, rfl, ?_⟩
  intro ho2 hn2o hair _
  constructor
  · apply mul_nonneg (div_nonneg (by linarith) (le_of_lt h)) (by norm_num)
  · rw [div_mul_eq_mul_div, div_le_iff₀ h]
    nlinarith

/-- Witness for C2 at `(o2, n2o, air, agent) = (2, 2, 1, 0)`. -/
theorem analyze_fio2_formula_witness :
    (analyze_gas_mixer 2 2 1 0 "w").metrics.fio2
      = (2 + 0.21 * 1) / (2 + 2 + 1) * 100 :=
  (analyze_fio2_formula 2 2 1 0 "w" (by norm_num)).1

/-- C3: for total flow `> 0`, a computed FiO₂ below 25.0 forces
`category=CRITICAL`, `status=FAIL` and exactly the one-decimal-place
hypoxia alert; a FiO₂ of at least 25.0 keeps `status=PASS` with no alert,
and the category stays SAFE unless a WARNING-level check fires. -/
theorem analyze_hypoxia_check (flow_o2 flow_n2o flow_air agent_perc : ℚ)
    (now : String) (h : flow_o2 + flow_n2o + flow_air > 0) :
    ((flow_o2 + flow_air * 0.21) / (flow_o2 + flow_n2o + flow_air) * 100 < 25.0 →
      (analyze_gas_mixer flow_o2 flow_n2o flow_air agent_perc now).category = "CRITICAL" ∧
      (analyze_gas_mixer flow_o2 flow_n2o flow_air agent_perc now).status = "FAIL" ∧
      (analyze_gas_mixer flow_o2 flow_n2o flow_air agent_perc now).alerts =
        [hypoxia_alert
          ((flow_o2 + flow_air * 0.21) / (flow_o2 + flow_n2o + flow_air) * 100)]) ∧
    (25.0 ≤ (flow_o2 + flow_air * 0.21) / (flow_o2 + flow_n2o + flow_air) * 100 →
      (analyze_gas_mixer flow_o2 flow_n2o flow_air agent_perc now).status = "PASS" ∧
      (analyze_gas_mixer flow_o2 flow_n2o flow_air agent_perc now).alerts = [] ∧
      (¬ flow_o2 + flow_n2o + flow_air < 0.5 → ¬ agent_perc > 8.0 →
        (analyze_gas_mixer flow_o2 flow_n2o flow_air agent_perc now).category = "SAFE")) := by
  rw [analyze_gas_mixer_pos flow_o2 flow_n2o flow_air agent_perc now (ne_of_gt h)]
  constructor
  · intro hf
    simp [if_pos hf]
  · intro hf
    have hf' : ¬ (flow_o2 + flow_air * 0.21) / (flow_o2 + flow_n2o + flow_air) * 100
        < 25.0 := not_lt.mpr hf
    refine ⟨by simp [if_neg hf'], by simp [if_neg hf'], ?_⟩
    intro hl ha
    simp [if_neg hf', if_neg hl, if_neg ha]

/-- Witness for C3 at scenario 3 of the spec
(`o2=0.3, n2o=2, air=0, agent=2`, FiO₂ ≈ 13.0 < 25). -/
theorem analyze_hypoxia_check_witness :
    (analyze_gas_mixer (3/10) 2 0 2 "w").category = "CRITICAL" :=
  ((analyze_hypoxia_check (3/10) 2 0 2 "w" (by norm_num)).1 (by norm_num)).1

end Anesthesia

namespace Anesthesia

/-- C4: for total flow `> 0`, the returned category is exactly the worst
severity among the fired checks (hypoxia at severity 2, low flow and high
agent at severity 1): CRITICAL, once set, is never overwritten by a
WARNING-level check, and each WARNING-level check appends its own warning
regardless of the category outcome. -/
theorem analyze_category_monotone (flow_o2 flow_n2o flow_air agent_perc : ℚ)
    (now : String) (h : flow_o2 + flow_n2o + flow_air > 0) :
    severity (analyze_gas_mixer flow_o2 flow_n2o flow_air agent_perc now).category =
      max
        (if (flow_o2 + flow_air * 0.21) / (flow_o2 + flow_n2o + flow_air) * 100 < 25.0
          then 2 else 0)
        (max (if flow_o2 + flow_n2o + flow_air < 0.5 then 1 else 0)
          (if agent_perc > 8.0 then 1 else 0)) ∧
    (analyze_gas_mixer flow_o2 flow_n2o flow_air agent_perc now).warnings =
      (if flow_o2 + flow_n2o + flow_air < 0.5 then [low_flow_warning] else []) ++
      (if agent_perc > 8.0 then [high_agent_warning agent_perc] else []) := by
  rw [analyze_gas_mixer_pos flow_o2 flow_n2o flow_air agent_perc now (ne_of_gt h)]
  refine ⟨?_, rfl⟩
  split_ifs <;> rfl

/-- Witness for C4 at an input firing all three checks
(`o2=0, n2o=0.2, air=0.1, agent=9`: FiO₂ = 7, total flow 0.3). -/
theorem analyze_category_monotone_witness :
    severity (analyze_gas_mixer 0 (2/10) (1/10) 9 "w").category =
      max (if ((0 : ℚ) + (1/10) * 0.21) / (0 + 2/10 + 1/10) * 100 < 25.0 then 2 else 0)
        (max (if (0 : ℚ) + 2/10 + 1/10 < 0.5 then 1 else 0)
          (if (9 : ℚ) > 8.0 then 1 else 0)) ∧
    (analyze_gas_mixer 0 (2/10) (1/10) 9 "w").warnings =
      (if (0 : ℚ) + 2/10 + 1/10 < 0.5 then [low_flow_warning] else []) ++
      (if (9 : ℚ) > 8.0 then [high_agent_warning 9] else []) :=
  analyze_category_monotone 0 (2/10) (1/10) 9 "w" (by norm_num)

/-- C5: the patient-specific FiO₂ floor is 25.0 or 30.0 (never higher),
equals 30.0 exactly when `age < 1` or `age > 65` or `asaClass ≥ 3`, and
the floor warning (stating the recommended minimum to one decimal place)
is emitted if and only if the supplied FiO₂ is below the floor. -/
theorem clinical_fio2_floor (fio2 agent_perc : ℚ) (patient : PatientProfile) :
    (recommended_fio2 patient = 25.0 ∨ recommended_fio2 patient = 30.0) ∧
    (recommended_fio2 patient = 30.0 ↔
      (patient.age < 1 ∨ patient.age > 65 ∨ patient.asa ≥ 3)) ∧
    (fio2_floor_warning (recommended_fio2 patient) ∈
        clinical_adjustment fio2 agent_perc patient ↔
      fio2 < recommended_fio2 patient) := by
  have d1 : fio2_floor_warning 25.0 ≠ agent_sensitivity_warning := by decide
  have d2 : fio2_floor_warning 25.0 ≠ low_compliance_warning := by decide
  have d3 : fio2_floor_warning 30.0 ≠ agent_sensitivity_warning := by decide
  have d4 : fio2_floor_warning 30.0 ≠ low_compliance_warning := by decide
  have e1 := d1.symm
  have e2 := d2.symm
  have e3 := d3.symm
  have e4 := d4.symm
  have h30 : recommended_fio2 patient = 25.0 ∨ recommended_fio2 patient = 30.0 := by
    unfold recommended_fio2
    split_ifs <;> simp
  have hiff : recommended_fio2 patient = 30.0 ↔
      (patient.age < 1 ∨ patient.age > 65 ∨ patient.asa ≥ 3) := by
    unfold recommended_fio2
    split_ifs <;> norm_num <;> omega
  have hmem : fio2_floor_warning (recommended_fio2 patient) ∈
      clinical_adjustment fio2 agent_perc patient ↔
      fio2 < recommended_fio2 patient := by
    simp only [clinical_adjustment]
    rcases h30 with h | h <;> rw [h] <;> split_ifs <;> simp_all
  exact ⟨h30, hiff, hmem⟩

/-- C6: the clinical warnings come in the fixed order FiO₂ floor, agent
sensitivity, compliance, each check contributing at most one entry; the
agent-sensitivity warning is present iff (`age > 65` or `weight < 50`)
and `agentPercent > 6.0`, and the compliance warning iff
`compliance < 30`. -/
theorem clinical_adjustment_order (fio2 agent_perc : ℚ)
    (patient : PatientProfile) :
    clinical_adjustment fio2 agent_perc patient =
      (if fio2 < recommended_fio2 patient then
          [fio2_floor_warning (recommended_fio2 patient)] else []) ++
      (if (patient.age > 65 ∨ patient.weight < 50) ∧ agent_perc > 6.0 then
          [agent_sensitivity_warning] else []) ++
      (if patient.compliance < 30 then [low_compliance_warning] else []) ∧
    (agent_sensitivity_warning ∈ clinical_adjustment fio2 agent_perc patient ↔
      (patient.age > 65 ∨ patient.weight < 50) ∧ agent_perc > 6.0) ∧
    (low_compliance_warning ∈ clinical_adjustment fio2 agent_perc patient ↔
      patient.compliance < 30) := by
  have d1 : fio2_floor_warning 25.0 ≠ agent_sensitivity_warning := by decide
  have d2 : fio2_floor_warning 25.0 ≠ low_compliance_warning := by decide
  have d3 : fio2_floor_warning 30.0 ≠ agent_sensitivity_warning := by decide
  have d4 : fio2_floor_warning 30.0 ≠ low_compliance_warning := by decide
  have d5 : agent_sensitivity_warning ≠ low_compliance_warning := by decide
  have e1 := d1.symm
  have e2 := d2.symm
  have e3 := d3.symm
  have e4 := d4.symm
  have e5 := d5.symm
  have h30 : recommended_fio2 patient = 25.0 ∨ recommended_fio2 patient = 30.0 := by
    unfold recommended_fio2
    split_ifs <;> simp
  simp only [clinical_adjustment]
  rcases h30 with h | h <;>
    rw [h] <;>
    split_ifs <;>
    simp_all

/-- C7: the caller-side merge of clinical warnings onto the analyzer's
result extends only the warnings list; status, category, metrics and
alerts of the analyzer are unchanged, and the clinical component
contributes no alert. -/
theorem merge_preserves_analysis (flow_o2 flow_n2o flow_air agent_perc : ℚ)
    (now : String) (patient : PatientProfile) :
    (mergeResult (analyze_gas_mixer flow_o2 flow_n2o flow_air agent_perc now)
        (clinical_adjustment
          (analyze_gas_mixer flow_o2 flow_n2o flow_air agent_perc now).metrics.fio2
          agent_perc patient)).status =
      (analyze_gas_mixer flow_o2 flow_n2o flow_air agent_perc now).status ∧
    (mergeResult (analyze_gas_mixer flow_o2 flow_n2o flow_air agent_perc now)
        (clinical_adjustment
          (analyze_gas_mixer flow_o2 flow_n2o flow_air agent_perc now).metrics.fio2
          agent_perc patient)).category =
      (analyze_gas_mixer flow_o2 flow_n2o flow_air agent_perc now).category ∧
    (mergeResult (analyze_gas_mixer flow_o2 flow_n2o flow_air agent_perc now)
        (clinical_adjustment
          (analyze_gas_mixer flow_o2 flow_n2o flow_air agent_perc now).metrics.fio2
          agent_perc patient)).alerts =
      (analyze_gas_mixer flow_o2 flow_n2o flow_air agent_perc now).alerts ∧
    (mergeResult (analyze_gas_mixer flow_o2 flow_n2o flow_air agent_perc now)
        (clinical_adjustment
          (analyze_gas_mixer flow_o2 flow_n2o flow_air agent_perc now).metrics.fio2
          agent_perc patient)).metrics =
      (analyze_gas_mixer flow_o2 flow_n2o flow_air agent_perc now).metrics ∧
    (mergeResult (analyze_gas_mixer flow_o2 flow_n2o flow_air agent_perc now)
        (clinical_adjustment
          (analyze_gas_mixer flow_o2 flow_n2o flow_air agent_perc now).metrics.fio2
          agent_perc patient)).warnings =
      (analyze_gas_mixer flow_o2 flow_n2o flow_air agent_perc now).warnings ++
        clinical_adjustment
          (analyze_gas_mixer flow_o2 flow_n2o flow_air agent_perc now).metrics.fio2
          agent_perc patient :=
  ⟨rfl, rfl, rfl, rfl, rfl⟩

end Anesthesia

namespace Anesthesia

/-- C8: the analyzer is deterministic up to the timestamp — two calls with
identical `(o2, n2o, air, agentPercent)` but different evaluation instants
agree on status, category, metrics, alerts and warnings. -/
theorem analyze_deterministic (flow_o2 flow_n2o flow_air agent_perc : ℚ)
    (t₁ t₂ : String) :
    (analyze_gas_mixer flow_o2 flow_n2o flow_air agent_perc t₁).status =
      (analyze_gas_mixer flow_o2 flow_n2o flow_air agent_perc t₂).status ∧
    (analyze_gas_mixer flow_o2 flow_n2o flow_air agent_perc t₁).category =
      (analyze_gas_mixer flow_o2 flow_n2o flow_air agent_perc t₂).category ∧
    (analyze_gas_mixer flow_o2 flow_n2o flow_air agent_perc t₁).metrics =
      (analyze_gas_mixer flow_o2 flow_n2o flow_air agent_perc t₂).metrics ∧
    (analyze_gas_mixer flow_o2 flow_n2o flow_air agent_perc t₁).alerts =
      (analyze_gas_mixer flow_o2 flow_n2o flow_air agent_perc t₂).alerts ∧
    (analyze_gas_mixer flow_o2 flow_n2o flow_air agent_perc t₁).warnings =
      (analyze_gas_mixer flow_o2 flow_n2o flow_air agent_perc t₂).warnings := by
  by_cases h : flow_o2 + flow_n2o + flow_air = 0
  · unfold analyze_gas_mixer
    simp [if_pos h]
  · rw [analyze_gas_mixer_pos flow_o2 flow_n2o flow_air agent_perc t₁ h,
      analyze_gas_mixer_pos flow_o2 flow_n2o flow_air agent_perc t₂ h]
    exact ⟨rfl, rfl, rfl, rfl, rfl⟩

/-- C9: both core functions are total (they are plain Lean functions, so
evaluation terminates on every input) and always produce a well-formed
result: the status and category are drawn from their enumerations, at most
one alert and at most two analyzer warnings exist, the clinical list holds
at most three warnings, and on all-zero flow the division is bypassed and
`fio2 = 0` — failure is only ever the domain outcome FAIL/CRITICAL. -/
theorem analyze_total_wellformed (flow_o2 flow_n2o flow_air agent_perc : ℚ)
    (now : String) (fio2 : ℚ) (patient : PatientProfile) :
    ((analyze_gas_mixer flow_o2 flow_n2o flow_air agent_perc now).status = "PASS" ∨
      (analyze_gas_mixer flow_o2 flow_n2o flow_air agent_perc now).status = "FAIL") ∧
    ((analyze_gas_mixer flow_o2 flow_n2o flow_air agent_perc now).category = "SAFE" ∨
      (analyze_gas_mixer flow_o2 flow_n2o flow_air agent_perc now).category = "WARNING" ∨
      (analyze_gas_mixer flow_o2 flow_n2o flow_air agent_perc now).category = "CRITICAL") ∧
    (analyze_gas_mixer flow_o2 flow_n2o flow_air agent_perc now).alerts.length ≤ 1 ∧
    (analyze_gas_mixer flow_o2 flow_n2o flow_air agent_perc now).warnings.length ≤ 2 ∧
    ((analyze_gas_mixer flow_o2 flow_n2o flow_air agent_perc now).status = "FAIL" →
      (analyze_gas_mixer flow_o2 flow_n2o flow_air agent_perc now).category = "CRITICAL") ∧
    (flow_o2 + flow_n2o + flow_air = 0 →
      (analyze_gas_mixer flow_o2 flow_n2o flow_air agent_perc now).metrics.fio2 = 0) ∧
    (clinical_adjustment fio2 agent_perc patient).length ≤ 3 := by
  have hc : (clinical_adjustment fio2 agent_perc patient).length ≤ 3 := by
    simp only [clinical_adjustment]
    split_ifs <;> simp
  by_cases h : flow_o2 + flow_n2o + flow_air = 0
  · unfold analyze_gas_mixer
    simp only [if_pos h]
    simp_all
  · rw [analyze_gas_mixer_pos flow_o2 flow_n2o flow_air agent_perc now h]
    split_ifs <;> simp_all

/-- Witness for C9's inner zero-flow implication at the all-zero input. -/
theorem analyze_total_wellformed_witness :
    (analyze_gas_mixer 0 0 0 0 "w").metrics.fio2 = 0 :=
  (analyze_total_wellformed 0 0 0 0 "w" 50 ⟨30, 70, 50, 1⟩).2.2.2.2.2.1 (by norm_num)

/-- C10: in every analyzer result, `status = FAIL` exactly when
`category = CRITICAL`, the category is CRITICAL exactly when the alerts
list is nonempty, and the alerts list never holds more than one entry;
hence SAFE or WARNING results have `status = PASS` and no alerts. -/
theorem analyze_status_alert_invariant (flow_o2 flow_n2o flow_air agent_perc : ℚ)
    (now : String) :
    ((analyze_gas_mixer flow_o2 flow_n2o flow_air agent_perc now).status = "FAIL" ↔
      (analyze_gas_mixer flow_o2 flow_n2o flow_air agent_perc now).category = "CRITICAL") ∧
    ((analyze_gas_mixer flow_o2 flow_n2o flow_air agent_perc now).category = "CRITICAL" ↔
      (analyze_gas_mixer flow_o2 flow_n2o flow_air agent_perc now).alerts ≠ []) ∧
    (analyze_gas_mixer flow_o2 flow_n2o flow_air agent_perc now).alerts.length ≤ 1 := by
  by_cases h : flow_o2 + flow_n2o + flow_air = 0
  · unfold analyze_gas_mixer
    simp only [if_pos h]
    simp
  · rw [analyze_gas_mixer_pos flow_o2 flow_n2o flow_air agent_perc now h]
    split_ifs <;> simp_all

end Anesthesia
